import Mathlib

/-!
Verification of the gameplay core of the Frankenstein-Handheld repository.

The definitions below are a shallow embedding of the TypeScript sources:
  src/src/logic/GameFSM.ts       (state machine, GameStateData)
  src/src/logic/RitualLogic.ts   (orchestration functions)
  src/src/logic/InputManager.ts  (debouncing input handler)
  src/src/config/rituals.ts      (difficulty scaler / ritual generation)
  src/src/config/types.ts        (enums and data shapes)
  src/assets/AUDIO_INSTRUCTIONS.md (constants: TIMING, MISTAKE_THRESHOLDS)
Numbers that are JS doubles in the source are modelled as rationals;
JS falsy fallbacks (the expression x || 5) are modelled explicitly.
Randomness in ritual generation is modelled as an explicit choice
function parameter.
-/

/-- FSM states, from src/src/config/types.ts. -/
inductive GameState
  | STATE_IDLE
  | STATE_RITUAL_STEP
  | STATE_MONSTER_MAD
  | STATE_ITS_ALIVE
deriving DecidableEq, Repr, Fintype

/-- Input actions, from src/src/config/types.ts. -/
inductive InputAction
  | JOYSTICK_UP
  | JOYSTICK_DOWN
  | JOYSTICK_LEFT
  | JOYSTICK_RIGHT
  | BUTTON_A
  | BUTTON_B
  | BUTTON_START
  | BUTTON_PAUSE
  | DPAD_UP
  | DPAD_DOWN
  | DPAD_LEFT
  | DPAD_RIGHT
deriving DecidableEq, Repr, Fintype

/-- EKG / monster emotional states, from src/src/config/types.ts. -/
inductive EKGState
  | STATE_CALM
  | STATE_NERVOUS
  | STATE_ANGRY
  | STATE_FLATLINE
  | STATE_ALIVE
deriving DecidableEq, Repr, Fintype

/-- Surgical object tags, from src/src/config/types.ts. -/
inductive SurgicalObjectType
  | DISINFECTANT
  | SCALPEL
  | ORGAN
  | WIRES
  | NEEDLE_THREAD
  | TOOLS
deriving DecidableEq, Repr, Fintype

/-- One ritual step, from src/src/config/types.ts. -/
structure RitualStep where
  name : String
  promptText : String
  correctAction : InputAction
  timeLimit : ℚ
  surgicalObject : SurgicalObjectType
  surgeonAnim : String
deriving DecidableEq, Repr

/-- A ritual (one level), from src/src/config/types.ts. -/
structure Ritual where
  levelNumber : ℕ
  baseTimeLimit : ℚ
  timeLimitMultiplier : ℚ
  steps : List RitualStep
deriving DecidableEq, Repr

/-- The mutable state owned by the FSM, from src/src/config/types.ts. -/
structure GameStateData where
  currentState : GameState
  currentRitual : Ritual
  currentStepIndex : ℕ
  mistakeCount : ℕ
  timeRemaining : ℚ
  golem_current_state : EKGState
  golem_madnessLevel : ℕ
  levelNumber : ℕ
deriving DecidableEq, Repr

/-- MISTAKE_THRESHOLDS.NERVOUS from src/assets/AUDIO_INSTRUCTIONS.md. -/
def MISTAKE_THRESHOLDS_NERVOUS : ℕ := 1

/-- MISTAKE_THRESHOLDS.ANGRY from src/assets/AUDIO_INSTRUCTIONS.md. -/
def MISTAKE_THRESHOLDS_ANGRY : ℕ := 3

/-- TIMING.INPUT_DEBOUNCE_MS from src/assets/AUDIO_INSTRUCTIONS.md. -/
def INPUT_DEBOUNCE_MS : ℤ := 50

/-- The JS expression `ritual.steps[0]?.timeLimit || 5` used in the GameFSM
constructor, loadRitual and resetToFirstStep: the fallback 5 applies both
when there is no first step and when its time limit is the falsy value 0. -/
def firstStepTimeOrDefault (r : Ritual) : ℚ :=
  match r.steps[0]? with
  | some s => if s.timeLimit = 0 then 5 else s.timeLimit
  | none => 5

/-- The GameFSM constructor (src/src/logic/GameFSM.ts, lines 16-28). -/
def mkGameFSM (initialRitual : Ritual) : GameStateData :=
  { currentState := GameState.STATE_IDLE
    currentRitual := initialRitual
    currentStepIndex := 0
    mistakeCount := 0
    timeRemaining := firstStepTimeOrDefault initialRitual
    golem_current_state := EKGState.STATE_CALM
    golem_madnessLevel := 0
    levelNumber := initialRitual.levelNumber }

/-- The validTransitions table inside isValidTransition
(src/src/logic/GameFSM.ts, lines 72-86). -/
def validTransitions : GameState → List GameState
  | GameState.STATE_IDLE => [GameState.STATE_RITUAL_STEP]
  | GameState.STATE_RITUAL_STEP =>
      [GameState.STATE_RITUAL_STEP, GameState.STATE_MONSTER_MAD, GameState.STATE_ITS_ALIVE]
  | GameState.STATE_MONSTER_MAD => [GameState.STATE_RITUAL_STEP, GameState.STATE_IDLE]
  | GameState.STATE_ITS_ALIVE => [GameState.STATE_RITUAL_STEP, GameState.STATE_IDLE]

/-- isValidTransition (src/src/logic/GameFSM.ts, lines 72-86). -/
def isValidTransition (src tgt : GameState) : Bool :=
  (validTransitions src).contains tgt

/-- onStateEnter (src/src/logic/GameFSM.ts, lines 91-119). -/
def onStateEnter (state : GameState) (d : GameStateData) : GameStateData :=
  match state with
  | GameState.STATE_IDLE =>
      { d with currentStepIndex := 0, mistakeCount := 0, golem_madnessLevel := 0,
               golem_current_state := EKGState.STATE_CALM }
  | GameState.STATE_RITUAL_STEP =>
      match d.currentRitual.steps[d.currentStepIndex]? with
      | some currentStep => { d with timeRemaining := currentStep.timeLimit }
      | none => d
  | GameState.STATE_MONSTER_MAD =>
      { d with golem_current_state := EKGState.STATE_FLATLINE }
  | GameState.STATE_ITS_ALIVE =>
      { d with golem_current_state := EKGState.STATE_ALIVE }

/-- TRANSITION_TO_STATE (src/src/logic/GameFSM.ts, lines 48-67): validates,
then sets currentState and runs the entry logic; returns the success flag
alongside the updated data. -/
def TRANSITION_TO_STATE (newState : GameState) (d : GameStateData) :
    Bool × GameStateData :=
  if isValidTransition d.currentState newState then
    (true, onStateEnter newState { d with currentState := newState })
  else
    (false, d)

/-- ADVANCE_RITUAL_STEP (src/src/logic/GameFSM.ts, lines 125-140). -/
def ADVANCE_RITUAL_STEP (d : GameStateData) : Bool × GameStateData :=
  let d1 := { d with currentStepIndex := d.currentStepIndex + 1 }
  if d1.currentRitual.steps.length ≤ d1.currentStepIndex then
    (false, d1)
  else
    match d1.currentRitual.steps[d1.currentStepIndex]? with
    | some currentStep => (true, { d1 with timeRemaining := currentStep.timeLimit })
    | none => (true, d1)

/-- updateGolemState (src/src/logic/GameFSM.ts, lines 156-166). -/
def updateGolemState (d : GameStateData) : GameStateData :=
  if MISTAKE_THRESHOLDS_ANGRY ≤ d.golem_madnessLevel then
    { d with golem_current_state := EKGState.STATE_ANGRY }
  else if MISTAKE_THRESHOLDS_NERVOUS ≤ d.golem_madnessLevel then
    { d with golem_current_state := EKGState.STATE_NERVOUS }
  else
    { d with golem_current_state := EKGState.STATE_CALM }

/-- REGISTER_MISTAKE (src/src/logic/GameFSM.ts, lines 145-151). -/
def REGISTER_MISTAKE (d : GameStateData) : GameStateData :=
  updateGolemState
    { d with mistakeCount := d.mistakeCount + 1,
             golem_madnessLevel := d.golem_madnessLevel + 1 }

/-- updateTime (src/src/logic/GameFSM.ts, lines 171-183): deltaTime is in
milliseconds and is divided by 1000 before being subtracted. -/
def updateTime (deltaTime : ℚ) (d : GameStateData) : GameStateData :=
  if d.currentState ≠ GameState.STATE_RITUAL_STEP then d
  else
    let d1 := { d with timeRemaining := d.timeRemaining - deltaTime / 1000 }
    if d1.timeRemaining ≤ 0 then
      (TRANSITION_TO_STATE GameState.STATE_MONSTER_MAD
        { d1 with timeRemaining := 0 }).2
    else d1

/-- loadRitual (src/src/logic/GameFSM.ts, lines 216-221). -/
def loadRitual (ritual : Ritual) (d : GameStateData) : GameStateData :=
  { d with currentRitual := ritual, currentStepIndex := 0,
           levelNumber := ritual.levelNumber,
           timeRemaining := firstStepTimeOrDefault ritual }

/-- resetToFirstStep (src/src/logic/GameFSM.ts, lines 226-232). -/
def resetToFirstStep (d : GameStateData) : GameStateData :=
  { d with currentStepIndex := 0, mistakeCount := 0, golem_madnessLevel := 0,
           golem_current_state := EKGState.STATE_CALM,
           timeRemaining := firstStepTimeOrDefault d.currentRitual }

/-- getCurrentStep (src/src/logic/GameFSM.ts, lines 237-239). -/
def getCurrentStep (d : GameStateData) : Option RitualStep :=
  d.currentRitual.steps[d.currentStepIndex]?

/-- isRitualComplete (src/src/logic/GameFSM.ts, lines 244-246). -/
def isRitualComplete (d : GameStateData) : Bool :=
  d.currentRitual.steps.length ≤ d.currentStepIndex

/-- START_RITUAL_SEQUENCE (src/src/logic/RitualLogic.ts, lines 12-15). -/
def START_RITUAL_SEQUENCE (d : GameStateData) : GameStateData :=
  (TRANSITION_TO_STATE GameState.STATE_RITUAL_STEP d).2

/-- VALIDATE_RITUAL_ACTION (src/src/logic/RitualLogic.ts, lines 21-26). -/
def VALIDATE_RITUAL_ACTION (action expectedAction : InputAction) : Bool :=
  action == expectedAction

/-- COMPLETE_RITUAL_STEP (src/src/logic/RitualLogic.ts, lines 32-43). -/
def COMPLETE_RITUAL_STEP (d : GameStateData) : GameStateData :=
  let r := ADVANCE_RITUAL_STEP d
  if r.1 then r.2
  else (TRANSITION_TO_STATE GameState.STATE_ITS_ALIVE r.2).2

/-- HANDLE_RITUAL_FAILURE (src/src/logic/RitualLogic.ts, lines 49-55). -/
def HANDLE_RITUAL_FAILURE (d : GameStateData) : GameStateData :=
  (TRANSITION_TO_STATE GameState.STATE_MONSTER_MAD (REGISTER_MISTAKE d)).2

/-- RETRY_RITUAL (src/src/logic/RitualLogic.ts, lines 60-74). -/
def RETRY_RITUAL (d : GameStateData) : GameStateData :=
  (TRANSITION_TO_STATE GameState.STATE_RITUAL_STEP (resetToFirstStep d)).2

/-- START_NEW_RITUAL (src/src/logic/RitualLogic.ts, lines 79-85). -/
def START_NEW_RITUAL (r : Ritual) (d : GameStateData) : GameStateData :=
  START_RITUAL_SEQUENCE (loadRitual r d)

/-- DISINFECT_ACTIONS (src/src/config/rituals.ts, lines 9-13). -/
def DISINFECT_ACTIONS : List (InputAction × String) :=
  [(InputAction.BUTTON_A, "Press Button A"),
   (InputAction.BUTTON_B, "Press Button B"),
   (InputAction.DPAD_UP, "D-Pad Up")]

/-- SLICE_ACTIONS (src/src/config/rituals.ts, lines 15-20). -/
def SLICE_ACTIONS : List (InputAction × String) :=
  [(InputAction.JOYSTICK_UP, "Move Joystick Up"),
   (InputAction.JOYSTICK_DOWN, "Move Joystick Down"),
   (InputAction.JOYSTICK_LEFT, "Move Joystick Left"),
   (InputAction.JOYSTICK_RIGHT, "Move Joystick Right")]

/-- REMOVE_ACTIONS (src/src/config/rituals.ts, lines 22-26). -/
def REMOVE_ACTIONS : List (InputAction × String) :=
  [(InputAction.BUTTON_B, "Press Button B"),
   (InputAction.BUTTON_A, "Press Button A"),
   (InputAction.DPAD_DOWN, "D-Pad Down")]

/-- CONNECT_ACTIONS (src/src/config/rituals.ts, lines 28-33). -/
def CONNECT_ACTIONS : List (InputAction × String) :=
  [(InputAction.DPAD_RIGHT, "D-Pad Right"),
   (InputAction.DPAD_LEFT, "D-Pad Left"),
   (InputAction.JOYSTICK_RIGHT, "Move Joystick Right"),
   (InputAction.JOYSTICK_LEFT, "Move Joystick Left")]

/-- SEW_ACTIONS (src/src/config/rituals.ts, lines 35-40). -/
def SEW_ACTIONS : List (InputAction × String) :=
  [(InputAction.JOYSTICK_DOWN, "Move Joystick Down"),
   (InputAction.JOYSTICK_UP, "Move Joystick Up"),
   (InputAction.DPAD_DOWN, "D-Pad Down"),
   (InputAction.DPAD_UP, "D-Pad Up")]

/-- CLEAN_ACTIONS (src/src/config/rituals.ts, lines 42-47). -/
def CLEAN_ACTIONS : List (InputAction × String) :=
  [(InputAction.DPAD_LEFT, "D-Pad Left"),
   (InputAction.DPAD_RIGHT, "D-Pad Right"),
   (InputAction.JOYSTICK_LEFT, "Move Joystick Left"),
   (InputAction.JOYSTICK_RIGHT, "Move Joystick Right")]

/-- getRandomAction (src/src/config/rituals.ts, lines 52-54).
The call to Math.random is modelled by an explicit pick value; taking it
modulo the list length reproduces the in-range index the source computes. -/
def getRandomAction (pick : ℕ) (actions : List (InputAction × String)) :
    InputAction × String :=
  actions.getD (pick % actions.length) (InputAction.BUTTON_A, "")

/-- The step time-limit formula Math.max(3, Math.floor(base * multiplier))
used for every generated step (src/src/config/rituals.ts). -/
def stepTimeLimit (base m : ℚ) : ℚ :=
  ((max 3 (Int.floor (base * m)) : ℤ) : ℚ)

/-- generateVariedRitual (src/src/config/rituals.ts, lines 59-131); the
random draws are supplied by the choice function (draw k for the k-th call
to getRandomAction). -/
def generateVariedRitual (choice : ℕ → ℕ) (levelNumber : ℕ)
    (baseTimeLimit timeLimitMultiplier : ℚ) : Ritual :=
  let disinfect := getRandomAction (choice 0) DISINFECT_ACTIONS
  let slice := getRandomAction (choice 1) SLICE_ACTIONS
  let removeA := getRandomAction (choice 2) REMOVE_ACTIONS
  let connect := getRandomAction (choice 3) CONNECT_ACTIONS
  let sew := getRandomAction (choice 4) SEW_ACTIONS
  let baseSteps : List RitualStep :=
    [{ name := "Disinfect", promptText := "Disinfect: " ++ disinfect.2,
       correctAction := disinfect.1,
       timeLimit := stepTimeLimit baseTimeLimit timeLimitMultiplier,
       surgicalObject := SurgicalObjectType.DISINFECTANT,
       surgeonAnim := "spray_disinfectant" },
     { name := "Slice Open", promptText := "Slice Open: " ++ slice.2,
       correctAction := slice.1,
       timeLimit := stepTimeLimit baseTimeLimit timeLimitMultiplier,
       surgicalObject := SurgicalObjectType.SCALPEL,
       surgeonAnim := "slice_incision" },
     { name := "Remove Organ", promptText := "Remove Organ: " ++ removeA.2,
       correctAction := removeA.1,
       timeLimit := stepTimeLimit baseTimeLimit timeLimitMultiplier,
       surgicalObject := SurgicalObjectType.ORGAN,
       surgeonAnim := "remove_organ" },
     { name := "Connect Wires", promptText := "Connect Wires: " ++ connect.2,
       correctAction := connect.1,
       timeLimit := stepTimeLimit baseTimeLimit timeLimitMultiplier,
       surgicalObject := SurgicalObjectType.WIRES,
       surgeonAnim := "connect_wires" },
     { name := "Sew Shut", promptText := "Sew Shut: " ++ sew.2,
       correctAction := sew.1,
       timeLimit := stepTimeLimit baseTimeLimit timeLimitMultiplier,
       surgicalObject := SurgicalObjectType.NEEDLE_THREAD,
       surgeonAnim := "sew_stitches" }]
  let extraStepsCount := (levelNumber - 1) / 3
  let extraSteps : List RitualStep :=
    (List.range extraStepsCount).map (fun i =>
      let clean := getRandomAction (choice (5 + i)) CLEAN_ACTIONS
      { name := "Clean Tools", promptText := "Clean Tools: " ++ clean.2,
        correctAction := clean.1,
        timeLimit := stepTimeLimit 8 timeLimitMultiplier,
        surgicalObject := SurgicalObjectType.TOOLS,
        surgeonAnim := "clean_tools" })
  { levelNumber := levelNumber
    baseTimeLimit := baseTimeLimit
    timeLimitMultiplier := timeLimitMultiplier
    steps := baseSteps ++ extraSteps }

/-- getRitualForLevel (src/src/config/rituals.ts, lines 140-148):
5 percent reduction per level above 1, floored at a 60 percent multiplier. -/
def getRitualForLevel (choice : ℕ → ℕ) (levelNumber : ℕ) : Ritual :=
  let baseTimeLimit : ℚ := 10
  let timeReduction : ℚ := 1 - (1 / 20) * ((levelNumber : ℚ) - 1)
  let timeLimitMultiplier : ℚ := max (3 / 5) timeReduction
  generateVariedRitual choice levelNumber baseTimeLimit timeLimitMultiplier

/-- Map.set semantics for the lastInputTime cache of the InputManager:
replace the entry for the key, keeping other entries. -/
def setKey (a : InputAction) (t : ℤ) :
    List (InputAction × ℤ) → List (InputAction × ℤ)
  | [] => [(a, t)]
  | (b, u) :: rest => if b = a then (a, t) :: rest else (b, u) :: setKey a t rest

/-- HANDLE_BUTTON_PRESS (src/src/logic/InputManager.ts, lines 281-299).
The Date.now() value is the explicit now argument; the lastInputTime Map is
an association list; the returned Option is the action emitted (exactly once
to every registered callback) or none when the input is debounced. The JS
fallback `this.lastInputTime.get(action) || 0` is getD 0. -/
def HANDLE_BUTTON_PRESS (action : InputAction) (now : ℤ)
    (lastInputTime : List (InputAction × ℤ)) :
    Option InputAction × List (InputAction × ℤ) :=
  let lastTime : ℤ := (lastInputTime.lookup action).getD 0
  let timeSinceLastInput := now - lastTime
  if timeSinceLastInput < INPUT_DEBOUNCE_MS then
    (none, lastInputTime)
  else
    (some action, setKey action now lastInputTime)

/-- A concrete one-step ritual: correct action BUTTON_A, time limit 5
(the ritual of spec scenario 1). -/
def oneStepRitualA : Ritual :=
  { levelNumber := 1, baseTimeLimit := 5, timeLimitMultiplier := 1,
    steps := [{ name := "Step", promptText := "Press Button A",
                correctAction := InputAction.BUTTON_A, timeLimit := 5,
                surgicalObject := SurgicalObjectType.DISINFECTANT,
                surgeonAnim := "idle" }] }

/-- A concrete one-step ritual whose step has a 1-second time limit
(the ritual of spec scenario 4). -/
def oneSecondRitual : Ritual :=
  { levelNumber := 1, baseTimeLimit := 1, timeLimitMultiplier := 1,
    steps := [{ name := "Step", promptText := "Press Button A",
                correctAction := InputAction.BUTTON_A, timeLimit := 1,
                surgicalObject := SurgicalObjectType.DISINFECTANT,
                surgeonAnim := "idle" }] }

/-- A concrete malformed ritual with zero steps. -/
def zeroStepRitual : Ritual :=
  { levelNumber := 2, baseTimeLimit := 10, timeLimitMultiplier := 1,
    steps := [] }

/-- One application of a state-machine operation, as the relation between
the data before and after: the operations of GameFSM.ts with arbitrary
arguments. -/
inductive FSMOp : GameStateData → GameStateData → Prop where
  | transition (s : GameState) (d : GameStateData) :
      FSMOp d (TRANSITION_TO_STATE s d).2
  | advance (d : GameStateData) : FSMOp d (ADVANCE_RITUAL_STEP d).2
  | mistake (d : GameStateData) : FSMOp d (REGISTER_MISTAKE d)
  | tick (delta : ℚ) (d : GameStateData) : FSMOp d (updateTime delta d)
  | reset (d : GameStateData) : FSMOp d (resetToFirstStep d)
  | load (r : Ritual) (d : GameStateData) : FSMOp d (loadRitual r d)

/-- States reachable from the freshly constructed FSM by any sequence of
the state-machine operations. -/
inductive Reachable (r0 : Ritual) : GameStateData → Prop where
  | init : Reachable r0 (mkGameFSM r0)
  | step {d d' : GameStateData} :
      Reachable r0 d → FSMOp d d' → Reachable r0 d'

/-- Like FSMOp, but ADVANCE_RITUAL_STEP may only be applied while the step
index is still below the step count, which is how the orchestration layer
(RitualLogic.ts) uses it: COMPLETE_RITUAL_STEP is only reached from
RITUAL_STEP before completion. -/
inductive GuardedOp : GameStateData → GameStateData → Prop where
  | transition (s : GameState) (d : GameStateData) :
      GuardedOp d (TRANSITION_TO_STATE s d).2
  | advance (d : GameStateData)
      (h : d.currentStepIndex < d.currentRitual.steps.length) :
      GuardedOp d (ADVANCE_RITUAL_STEP d).2
  | mistake (d : GameStateData) : GuardedOp d (REGISTER_MISTAKE d)
  | tick (delta : ℚ) (d : GameStateData) : GuardedOp d (updateTime delta d)
  | reset (d : GameStateData) : GuardedOp d (resetToFirstStep d)
  | load (r : Ritual) (d : GameStateData) : GuardedOp d (loadRitual r d)

/-- States reachable using only guarded operations. -/
inductive GuardedReachable (r0 : Ritual) : GameStateData → Prop where
  | init : GuardedReachable r0 (mkGameFSM r0)
  | step {d d' : GameStateData} :
      GuardedReachable r0 d → GuardedOp d d' → GuardedReachable r0 d'

theorem onStateEnter_currentState (s : GameState) (d : GameStateData) :
    (onStateEnter s d).currentState = d.currentState := by
  cases s
  case STATE_RITUAL_STEP =>
    simp only [onStateEnter]
    split <;> rfl
  all_goals rfl

theorem onStateEnter_currentRitual (s : GameState) (d : GameStateData) :
    (onStateEnter s d).currentRitual = d.currentRitual := by
  cases s
  case STATE_RITUAL_STEP =>
    simp only [onStateEnter]
    split <;> rfl
  all_goals rfl

theorem onStateEnter_stepIndex (s : GameState) (d : GameStateData) :
    (onStateEnter s d).currentStepIndex =
      if s = GameState.STATE_IDLE then 0 else d.currentStepIndex := by
  cases s
  case STATE_RITUAL_STEP =>
    simp only [onStateEnter]
    split <;> rfl
  all_goals rfl

theorem onStateEnter_madness (s : GameState) (d : GameStateData) :
    (onStateEnter s d).golem_madnessLevel =
      if s = GameState.STATE_IDLE then 0 else d.golem_madnessLevel := by
  cases s
  case STATE_RITUAL_STEP =>
    simp only [onStateEnter]
    split <;> rfl
  all_goals rfl

theorem onStateEnter_mistakeCount (s : GameState) (d : GameStateData) :
    (onStateEnter s d).mistakeCount =
      if s = GameState.STATE_IDLE then 0 else d.mistakeCount := by
  cases s
  case STATE_RITUAL_STEP =>
    simp only [onStateEnter]
    split <;> rfl
  all_goals rfl

theorem onStateEnter_timeRemaining_of_ne (s : GameState) (d : GameStateData)
    (h : s ≠ GameState.STATE_RITUAL_STEP) :
    (onStateEnter s d).timeRemaining = d.timeRemaining := by
  cases s
  case STATE_RITUAL_STEP => exact absurd rfl h
  all_goals rfl

theorem transition_fst (s : GameState) (d : GameStateData) :
    (TRANSITION_TO_STATE s d).1 = isValidTransition d.currentState s := by
  unfold TRANSITION_TO_STATE
  split <;> simp_all

theorem transition_snd_valid {s : GameState} {d : GameStateData}
    (h : isValidTransition d.currentState s = true) :
    (TRANSITION_TO_STATE s d).2 = onStateEnter s { d with currentState := s } := by
  unfold TRANSITION_TO_STATE
  simp [h]

theorem transition_snd_invalid {s : GameState} {d : GameStateData}
    (h : isValidTransition d.currentState s = false) :
    (TRANSITION_TO_STATE s d).2 = d := by
  unfold TRANSITION_TO_STATE
  simp [h]

theorem transition_currentRitual (s : GameState) (d : GameStateData) :
    (TRANSITION_TO_STATE s d).2.currentRitual = d.currentRitual := by
  rcases h : isValidTransition d.currentState s with _ | _
  · rw [transition_snd_invalid h]
  · rw [transition_snd_valid h, onStateEnter_currentRitual]

theorem transition_stepIndex (s : GameState) (d : GameStateData) :
    (TRANSITION_TO_STATE s d).2.currentStepIndex = 0 ∨
      (TRANSITION_TO_STATE s d).2.currentStepIndex = d.currentStepIndex := by
  rcases h : isValidTransition d.currentState s with _ | _
  · right; rw [transition_snd_invalid h]
  · rw [transition_snd_valid h, onStateEnter_stepIndex]
    split
    · left; rfl
    · right; rfl

theorem transition_madness (s : GameState) (d : GameStateData) :
    (TRANSITION_TO_STATE s d).2.golem_madnessLevel =
      if (TRANSITION_TO_STATE s d).1 = true ∧ s = GameState.STATE_IDLE then 0
      else d.golem_madnessLevel := by
  rw [transition_fst]
  rcases h : isValidTransition d.currentState s with _ | _
  · rw [transition_snd_invalid h]
    simp
  · rw [transition_snd_valid h, onStateEnter_madness]
    simp

theorem transition_mistakeCount (s : GameState) (d : GameStateData) :
    (TRANSITION_TO_STATE s d).2.mistakeCount =
      if (TRANSITION_TO_STATE s d).1 = true ∧ s = GameState.STATE_IDLE then 0
      else d.mistakeCount := by
  rw [transition_fst]
  rcases h : isValidTransition d.currentState s with _ | _
  · rw [transition_snd_invalid h]
    simp
  · rw [transition_snd_valid h, onStateEnter_mistakeCount]
    simp

theorem advance_stepIndex (d : GameStateData) :
    (ADVANCE_RITUAL_STEP d).2.currentStepIndex = d.currentStepIndex + 1 := by
  unfold ADVANCE_RITUAL_STEP
  dsimp only
  split
  · rfl
  · split <;> rfl

theorem advance_currentState (d : GameStateData) :
    (ADVANCE_RITUAL_STEP d).2.currentState = d.currentState := by
  unfold ADVANCE_RITUAL_STEP
  dsimp only
  split
  · rfl
  · split <;> rfl

theorem advance_currentRitual (d : GameStateData) :
    (ADVANCE_RITUAL_STEP d).2.currentRitual = d.currentRitual := by
  unfold ADVANCE_RITUAL_STEP
  dsimp only
  split
  · rfl
  · split <;> rfl

theorem advance_madness (d : GameStateData) :
    (ADVANCE_RITUAL_STEP d).2.golem_madnessLevel = d.golem_madnessLevel := by
  unfold ADVANCE_RITUAL_STEP
  dsimp only
  split
  · rfl
  · split <;> rfl

theorem register_mistake_stepIndex (d : GameStateData) :
    (REGISTER_MISTAKE d).currentStepIndex = d.currentStepIndex := by
  unfold REGISTER_MISTAKE updateGolemState
  split <;> try rfl
  split <;> rfl

theorem register_mistake_currentRitual (d : GameStateData) :
    (REGISTER_MISTAKE d).currentRitual = d.currentRitual := by
  unfold REGISTER_MISTAKE updateGolemState
  split <;> try rfl
  split <;> rfl

theorem register_mistake_madness (d : GameStateData) :
    (REGISTER_MISTAKE d).golem_madnessLevel = d.golem_madnessLevel + 1 := by
  unfold REGISTER_MISTAKE updateGolemState
  split <;> try rfl
  split <;> rfl

theorem register_mistake_mistakeCount (d : GameStateData) :
    (REGISTER_MISTAKE d).mistakeCount = d.mistakeCount + 1 := by
  unfold REGISTER_MISTAKE updateGolemState
  split <;> try rfl
  split <;> rfl

theorem updateTime_madness (delta : ℚ) (d : GameStateData) :
    (updateTime delta d).golem_madnessLevel = d.golem_madnessLevel := by
  unfold updateTime
  dsimp only
  split
  · rfl
  · split
    · rw [transition_madness]
      simp
    · rfl

theorem updateTime_mistakeCount (delta : ℚ) (d : GameStateData) :
    (updateTime delta d).mistakeCount = d.mistakeCount := by
  unfold updateTime
  dsimp only
  split
  · rfl
  · split
    · rw [transition_mistakeCount]
      simp
    · rfl

theorem updateTime_stepIndex (delta : ℚ) (d : GameStateData) :
    (updateTime delta d).currentStepIndex = 0 ∨
      (updateTime delta d).currentStepIndex = d.currentStepIndex := by
  unfold updateTime
  dsimp only
  split
  · right; rfl
  · split
    · exact transition_stepIndex _ _
    · right; rfl

theorem updateTime_currentRitual (delta : ℚ) (d : GameStateData) :
    (updateTime delta d).currentRitual = d.currentRitual := by
  unfold updateTime
  dsimp only
  split
  · rfl
  · split
    · rw [transition_currentRitual]
    · rfl

/-- The transition table exactly as the spec lists it (claim side, for
comparison with isValidTransition of the source). -/
def specTransitionTable : List (GameState × GameState) :=
  [(GameState.STATE_IDLE, GameState.STATE_RITUAL_STEP),
   (GameState.STATE_RITUAL_STEP, GameState.STATE_RITUAL_STEP),
   (GameState.STATE_RITUAL_STEP, GameState.STATE_MONSTER_MAD),
   (GameState.STATE_RITUAL_STEP, GameState.STATE_ITS_ALIVE),
   (GameState.STATE_MONSTER_MAD, GameState.STATE_RITUAL_STEP),
   (GameState.STATE_MONSTER_MAD, GameState.STATE_IDLE),
   (GameState.STATE_ITS_ALIVE, GameState.STATE_RITUAL_STEP),
   (GameState.STATE_ITS_ALIVE, GameState.STATE_IDLE)]

/-- Claim C1: TRANSITION_TO_STATE succeeds and sets currentState to the
requested state exactly for the pairs of the transition table; for every
other pair it returns false and leaves every field of GameStateData
unchanged. -/
theorem transition_table_characterization (s : GameState) (d : GameStateData) :
    ((TRANSITION_TO_STATE s d).1 = true ↔ (d.currentState, s) ∈ specTransitionTable)
    ∧ ((TRANSITION_TO_STATE s d).1 = true →
        (TRANSITION_TO_STATE s d).2.currentState = s)
    ∧ ((TRANSITION_TO_STATE s d).1 = false → (TRANSITION_TO_STATE s d).2 = d) := by
  have hiff : ∀ a b : GameState,
      isValidTransition a b = true ↔ (a, b) ∈ specTransitionTable := by decide
  refine ⟨?_, ?_, ?_⟩
  · rw [transition_fst]
    exact hiff d.currentState s
  · intro h
    rw [transition_fst] at h
    rw [transition_snd_valid h, onStateEnter_currentState]
  · intro h
    rw [transition_fst] at h
    exact transition_snd_invalid h

/-- Witness for C1 at a concrete state: from the freshly constructed FSM
(in IDLE), the transition to ITS_ALIVE is rejected and the data is
returned unchanged. -/
theorem transition_table_characterization_witness :
    (TRANSITION_TO_STATE GameState.STATE_ITS_ALIVE (mkGameFSM oneStepRitualA)).2
      = mkGameFSM oneStepRitualA :=
  (transition_table_characterization GameState.STATE_ITS_ALIVE
    (mkGameFSM oneStepRitualA)).2.2 (by decide)

/-- Claim C2: each successful transition performs exactly the listed
on-enter mutation: IDLE resets step index, mistake count, madness and
monster state; RITUAL_STEP sets time remaining to the time limit of the
current step; MONSTER_MAD forces FLATLINE; ITS_ALIVE forces ALIVE; no
other field changes. -/
theorem on_enter_effects (s : GameState) (d : GameStateData)
    (h : (TRANSITION_TO_STATE s d).1 = true) :
    (s = GameState.STATE_IDLE →
      (TRANSITION_TO_STATE s d).2 =
        { d with currentState := s, currentStepIndex := 0, mistakeCount := 0,
                 golem_madnessLevel := 0,
                 golem_current_state := EKGState.STATE_CALM })
    ∧ (∀ step : RitualStep, s = GameState.STATE_RITUAL_STEP →
        getCurrentStep d = some step →
        (TRANSITION_TO_STATE s d).2 =
          { d with currentState := s, timeRemaining := step.timeLimit })
    ∧ (s = GameState.STATE_MONSTER_MAD →
        (TRANSITION_TO_STATE s d).2 =
          { d with currentState := s,
                   golem_current_state := EKGState.STATE_FLATLINE })
    ∧ (s = GameState.STATE_ITS_ALIVE →
        (TRANSITION_TO_STATE s d).2 =
          { d with currentState := s,
                   golem_current_state := EKGState.STATE_ALIVE }) := by
  rw [transition_fst] at h
  rw [transition_snd_valid h]
  refine ⟨?_, ?_, ?_, ?_⟩
  · rintro rfl
    rfl
  · rintro step rfl hstep
    unfold getCurrentStep at hstep
    unfold onStateEnter
    dsimp only
    rw [hstep]
  · rintro rfl
    rfl
  · rintro rfl
    rfl

/-- Witness for C2: starting the one-step ritual from IDLE enters
RITUAL_STEP and sets time remaining to the time limit (5) of step 0. -/
theorem on_enter_effects_witness :
    (TRANSITION_TO_STATE GameState.STATE_RITUAL_STEP (mkGameFSM oneStepRitualA)).2
      = { mkGameFSM oneStepRitualA with
            currentState := GameState.STATE_RITUAL_STEP, timeRemaining := 5 } :=
  (on_enter_effects GameState.STATE_RITUAL_STEP (mkGameFSM oneStepRitualA)
      (by decide)).2.1
    { name := "Step", promptText := "Press Button A",
      correctAction := InputAction.BUTTON_A, timeLimit := 5,
      surgicalObject := SurgicalObjectType.DISINFECTANT,
      surgeonAnim := "idle" } rfl rfl

theorem updateTime_not_ritual {d : GameStateData} (delta : ℚ)
    (h : d.currentState ≠ GameState.STATE_RITUAL_STEP) :
    updateTime delta d = d := by
  unfold updateTime
  simp [h]

theorem updateTime_no_timeout {d : GameStateData} (delta : ℚ)
    (hs : d.currentState = GameState.STATE_RITUAL_STEP)
    (hpos : 0 < d.timeRemaining - delta / 1000) :
    updateTime delta d = { d with timeRemaining := d.timeRemaining - delta / 1000 } := by
  unfold updateTime
  dsimp only
  rw [if_neg (by simp [hs]), if_neg (by rw [not_le]; exact hpos)]

theorem updateTime_timeout {d : GameStateData} (delta : ℚ)
    (hs : d.currentState = GameState.STATE_RITUAL_STEP)
    (hle : d.timeRemaining - delta / 1000 ≤ 0) :
    updateTime delta d =
      { d with timeRemaining := 0,
               currentState := GameState.STATE_MONSTER_MAD,
               golem_current_state := EKGState.STATE_FLATLINE } := by
  unfold updateTime
  dsimp only
  rw [if_neg (by simp [hs]), if_pos hle]
  have hv : isValidTransition
      ({ d with timeRemaining := (0:ℚ) } : GameStateData).currentState
      GameState.STATE_MONSTER_MAD = true := by
    show isValidTransition d.currentState GameState.STATE_MONSTER_MAD = true
    rw [hs]
    decide
  rw [transition_snd_valid hv]
  rfl

/-- The game state reached by starting the one-second ritual: in
RITUAL_STEP with timeRemaining = 1 (the configuration of spec scenario 4). -/
def ritualStepOneSecond : GameStateData :=
  START_RITUAL_SEQUENCE (mkGameFSM oneSecondRitual)

theorem ritualStepOneSecond_timeRemaining : ritualStepOneSecond.timeRemaining = 1 := rfl

/-- Counterexample to claim C3 as stated: updateTime interprets its delta
in milliseconds, not seconds. On a running 1-second step, updateTime 500
leaves timeRemaining = 1/2 and stays in RITUAL_STEP, whereas a decrement
by a delta of 500 seconds clamped at 0 would give timeRemaining = 0. -/
theorem updateTime_seconds_counterexample :
    (updateTime 500 ritualStepOneSecond).timeRemaining = 1 / 2
    ∧ (updateTime 500 ritualStepOneSecond).currentState
        = GameState.STATE_RITUAL_STEP
    ∧ ¬ ((updateTime 500 ritualStepOneSecond).timeRemaining
          = max (ritualStepOneSecond.timeRemaining - 500) 0) := by
  have h := updateTime_no_timeout (d := ritualStepOneSecond) 500 rfl
    (by rw [ritualStepOneSecond_timeRemaining]; norm_num)
  rw [h]
  refine ⟨?_, rfl, ?_⟩
  · show ritualStepOneSecond.timeRemaining - 500 / 1000 = 1 / 2
    rw [ritualStepOneSecond_timeRemaining]
    norm_num
  · show ¬ (ritualStepOneSecond.timeRemaining - 500 / 1000
        = max (ritualStepOneSecond.timeRemaining - 500) 0)
    rw [ritualStepOneSecond_timeRemaining]
    rw [max_eq_right (by norm_num : (1:ℚ) - 500 ≤ 0)]
    norm_num

/-- Claim C3 as amended: updateTime is a no-op outside RITUAL_STEP; in
RITUAL_STEP the delta is in milliseconds and timeRemaining decreases by
delta/1000, clamped at 0, and hitting 0 triggers the timeout transition
to MONSTER_MAD; in particular on a running 1-second step a single
updateTime 1500 leaves timeRemaining = 0 in state MONSTER_MAD. -/
theorem updateTime_spec (delta : ℚ) (d : GameStateData) :
    (d.currentState ≠ GameState.STATE_RITUAL_STEP → updateTime delta d = d)
    ∧ (d.currentState = GameState.STATE_RITUAL_STEP →
        (0 < d.timeRemaining - delta / 1000 →
          updateTime delta d =
            { d with timeRemaining := d.timeRemaining - delta / 1000 })
        ∧ (d.timeRemaining - delta / 1000 ≤ 0 →
            (updateTime delta d).timeRemaining = 0
            ∧ (updateTime delta d).currentState = GameState.STATE_MONSTER_MAD))
    ∧ ((updateTime 1500 ritualStepOneSecond).timeRemaining = 0
       ∧ (updateTime 1500 ritualStepOneSecond).currentState
           = GameState.STATE_MONSTER_MAD) := by
  refine ⟨fun h => updateTime_not_ritual delta h,
          fun hs => ⟨fun hpos => updateTime_no_timeout delta hs hpos,
                     fun hle => by rw [updateTime_timeout delta hs hle]; exact ⟨rfl, rfl⟩⟩,
          ?_⟩
  have hle : ritualStepOneSecond.timeRemaining - 1500 / 1000 ≤ 0 := by
    rw [ritualStepOneSecond_timeRemaining]
    norm_num
  rw [updateTime_timeout 1500 rfl hle]
  exact ⟨rfl, rfl⟩

/-- Witness for C3 (amended): on the running 1-second step, a tick of 200
milliseconds leaves 0.8 seconds remaining. -/
theorem updateTime_spec_witness :
    updateTime 200 ritualStepOneSecond =
      { ritualStepOneSecond with
          timeRemaining := ritualStepOneSecond.timeRemaining - 200 / 1000 } :=
  ((updateTime_spec 200 ritualStepOneSecond).2.1 rfl).1
    (by rw [ritualStepOneSecond_timeRemaining]; norm_num)

theorem advance_fst_complete {d : GameStateData}
    (h : d.currentRitual.steps.length ≤ d.currentStepIndex + 1) :
    (ADVANCE_RITUAL_STEP d).1 = false := by
  unfold ADVANCE_RITUAL_STEP
  dsimp only
  rw [if_pos h]

theorem advance_fst_more {d : GameStateData} {step : RitualStep}
    (h : d.currentRitual.steps[d.currentStepIndex + 1]? = some step) :
    (ADVANCE_RITUAL_STEP d).1 = true
    ∧ (ADVANCE_RITUAL_STEP d).2.timeRemaining = step.timeLimit := by
  have hlt : d.currentStepIndex + 1 < d.currentRitual.steps.length := by
    rcases List.getElem?_eq_some.mp h with ⟨hl, _⟩
    exact hl
  unfold ADVANCE_RITUAL_STEP
  dsimp only
  rw [if_neg (by omega)]
  rw [h]
  exact ⟨rfl, rfl⟩

/-- Claim C4: ADVANCE_RITUAL_STEP increments the step index and never
changes currentState; it returns false (ritual complete) when the new
index reaches the step count and otherwise returns true after setting
time remaining to the time limit of the new step. Consequently, for the
one-step ritual (correct action BUTTON_A, time limit 5), starting and
then submitting BUTTON_A ends in ITS_ALIVE with step index 1. -/
theorem advance_step_spec (d : GameStateData) :
    ((ADVANCE_RITUAL_STEP d).2.currentStepIndex = d.currentStepIndex + 1)
    ∧ ((ADVANCE_RITUAL_STEP d).2.currentState = d.currentState)
    ∧ (d.currentRitual.steps.length ≤ d.currentStepIndex + 1 →
        (ADVANCE_RITUAL_STEP d).1 = false)
    ∧ (∀ step : RitualStep,
        d.currentRitual.steps[d.currentStepIndex + 1]? = some step →
        (ADVANCE_RITUAL_STEP d).1 = true
        ∧ (ADVANCE_RITUAL_STEP d).2.timeRemaining = step.timeLimit)
    ∧ (((getCurrentStep (START_RITUAL_SEQUENCE (mkGameFSM oneStepRitualA))).map
          (fun st => VALIDATE_RITUAL_ACTION InputAction.BUTTON_A st.correctAction))
         = some true
       ∧ (COMPLETE_RITUAL_STEP (START_RITUAL_SEQUENCE
            (mkGameFSM oneStepRitualA))).currentState = GameState.STATE_ITS_ALIVE
       ∧ (COMPLETE_RITUAL_STEP (START_RITUAL_SEQUENCE
            (mkGameFSM oneStepRitualA))).currentStepIndex = 1) := by
  refine ⟨advance_stepIndex d, advance_currentState d,
          fun h => advance_fst_complete h,
          fun step h => advance_fst_more h, ?_, ?_, ?_⟩ <;> decide

/-- Witness for C4: advancing from step 0 of the one-step ritual reports
ritual complete. -/
theorem advance_step_spec_witness :
    (ADVANCE_RITUAL_STEP (mkGameFSM oneStepRitualA)).1 = false :=
  (advance_step_spec (mkGameFSM oneStepRitualA)).2.2.1 (by decide)

theorem loadRitual_stepIndex (r : Ritual) (d : GameStateData) :
    (loadRitual r d).currentStepIndex = 0 := rfl

theorem loadRitual_currentRitual (r : Ritual) (d : GameStateData) :
    (loadRitual r d).currentRitual = r := rfl

theorem resetToFirstStep_stepIndex (d : GameStateData) :
    (resetToFirstStep d).currentStepIndex = 0 := rfl

theorem resetToFirstStep_currentRitual (d : GameStateData) :
    (resetToFirstStep d).currentRitual = d.currentRitual := rfl

/-- Claim C5 as amended: provided ADVANCE_RITUAL_STEP is only invoked
while the step index is below the step count (as the orchestration layer
does), every reachable state keeps currentStepIndex within
[0, steps.length] of the current ritual. -/
theorem stepIndex_in_bounds (r0 : Ritual) (d : GameStateData)
    (h : GuardedReachable r0 d) :
    d.currentStepIndex ≤ d.currentRitual.steps.length := by
  induction h with
  | init => exact Nat.zero_le _
  | @step d1 d2 hr hop ih =>
    cases hop with
    | transition s =>
      rw [transition_currentRitual]
      rcases transition_stepIndex s d1 with h0 | hsame
      · rw [h0]; exact Nat.zero_le _
      · rw [hsame]; exact ih
    | advance _ hlt =>
      rw [advance_currentRitual, advance_stepIndex]
      exact hlt
    | mistake =>
      rw [register_mistake_currentRitual, register_mistake_stepIndex]
      exact ih
    | tick delta =>
      rw [updateTime_currentRitual]
      rcases updateTime_stepIndex delta d1 with h0 | hsame
      · rw [h0]; exact Nat.zero_le _
      · rw [hsame]; exact ih
    | reset =>
      rw [resetToFirstStep_currentRitual, resetToFirstStep_stepIndex]
      exact Nat.zero_le _
    | load r =>
      rw [loadRitual_currentRitual, loadRitual_stepIndex]
      exact Nat.zero_le _

/-- Witness for C5 (amended): the initial state of the one-step ritual is
guarded-reachable and satisfies the bound. -/
theorem stepIndex_in_bounds_witness :
    (mkGameFSM oneStepRitualA).currentStepIndex
      ≤ (mkGameFSM oneStepRitualA).currentRitual.steps.length :=
  stepIndex_in_bounds oneStepRitualA (mkGameFSM oneStepRitualA)
    GuardedReachable.init

/-- The state reached from the one-step ritual by calling
ADVANCE_RITUAL_STEP twice in a row. -/
def overAdvanced : GameStateData :=
  (ADVANCE_RITUAL_STEP (ADVANCE_RITUAL_STEP (mkGameFSM oneStepRitualA)).2).2

/-- Counterexample to claim C5 as stated: under the listed operation set,
calling ADVANCE_RITUAL_STEP again after the ritual completed pushes
currentStepIndex to 2, strictly above steps.length = 1, so the invariant
does not hold for every reachable state. -/
theorem stepIndex_out_of_bounds_counterexample :
    Reachable oneStepRitualA overAdvanced
    ∧ overAdvanced.currentRitual.steps.length < overAdvanced.currentStepIndex := by
  constructor
  · exact Reachable.step (Reachable.step Reachable.init (FSMOp.advance _))
      (FSMOp.advance _)
  · decide

/-- Claim C6: golem_madnessLevel is zeroed exactly by a successful
transition into IDLE and by resetToFirstStep; REGISTER_MISTAKE increments
it together with mistakeCount; every other operation, including
loadRitual, ADVANCE_RITUAL_STEP and the timeout path inside updateTime,
leaves it unchanged, and updateTime changes neither mistake count nor
madness. -/
theorem madness_accounting (s : GameState) (r : Ritual) (delta : ℚ)
    (d : GameStateData) :
    ((TRANSITION_TO_STATE s d).2.golem_madnessLevel =
      if (TRANSITION_TO_STATE s d).1 = true ∧ s = GameState.STATE_IDLE then 0
      else d.golem_madnessLevel)
    ∧ (resetToFirstStep d).golem_madnessLevel = 0
    ∧ (REGISTER_MISTAKE d).golem_madnessLevel = d.golem_madnessLevel + 1
    ∧ (REGISTER_MISTAKE d).mistakeCount = d.mistakeCount + 1
    ∧ (ADVANCE_RITUAL_STEP d).2.golem_madnessLevel = d.golem_madnessLevel
    ∧ (loadRitual r d).golem_madnessLevel = d.golem_madnessLevel
    ∧ (updateTime delta d).golem_madnessLevel = d.golem_madnessLevel
    ∧ (updateTime delta d).mistakeCount = d.mistakeCount :=
  ⟨transition_madness s d, rfl, register_mistake_madness d,
   register_mistake_mistakeCount d, advance_madness d, rfl,
   updateTime_madness delta d, updateTime_mistakeCount delta d⟩

/-- Counterexample to claim C7 as stated: loading a zero-step ritual does
not fall back to a one-step ritual; the loaded ritual still has zero
steps and getCurrentStep returns none, so it is false that after loading
the current ritual has at least one step and getCurrentStep returns a
step. -/
theorem loadRitual_zero_step_counterexample :
    (loadRitual zeroStepRitual (mkGameFSM oneStepRitualA)).currentRitual.steps.length = 0
    ∧ getCurrentStep (loadRitual zeroStepRitual (mkGameFSM oneStepRitualA)) = none
    ∧ ¬ (0 < (loadRitual zeroStepRitual
            (mkGameFSM oneStepRitualA)).currentRitual.steps.length
         ∧ (getCurrentStep (loadRitual zeroStepRitual
              (mkGameFSM oneStepRitualA))).isSome = true) := by
  decide

/-- Claim C7 as amended: loading a zero-step ritual installs that ritual
unchanged (no one-step fallback ritual is substituted); the only guard is
the time-remaining fallback, which is set to the fixed positive value of
5 seconds, while getCurrentStep returns none. -/
theorem loadRitual_zero_step_spec (d : GameStateData) (R : Ritual)
    (h : R.steps = []) :
    loadRitual R d =
      { d with currentRitual := R, currentStepIndex := 0,
               levelNumber := R.levelNumber, timeRemaining := 5 }
    ∧ getCurrentStep (loadRitual R d) = none
    ∧ 0 < (loadRitual R d).timeRemaining := by
  refine ⟨?_, ?_, ?_⟩
  · unfold loadRitual firstStepTimeOrDefault
    rw [h]
    rfl
  · unfold getCurrentStep loadRitual
    dsimp only
    rw [h]
    rfl
  · show 0 < firstStepTimeOrDefault R
    unfold firstStepTimeOrDefault
    rw [h]
    norm_num

/-- Witness for C7 (amended): loading the concrete zero-step ritual over
the one-step initial state leaves no current step. -/
theorem loadRitual_zero_step_spec_witness :
    getCurrentStep (loadRitual zeroStepRitual (mkGameFSM oneStepRitualA)) = none :=
  (loadRitual_zero_step_spec (mkGameFSM oneStepRitualA) zeroStepRitual rfl).2.1

/-- A state in RITUAL_STEP with timeRemaining = 0, reached from the
one-step ritual by: start, a second unguarded advance past the end, a
full timeout, and retrying the ritual step (whose entry cannot refresh
the timer, the step index being out of range). -/
def stuckRitualStep : GameStateData :=
  (TRANSITION_TO_STATE GameState.STATE_RITUAL_STEP
    (updateTime 5000
      (ADVANCE_RITUAL_STEP
        (TRANSITION_TO_STATE GameState.STATE_RITUAL_STEP
          (mkGameFSM oneStepRitualA)).2).2)).2

theorem stuckRitualStep_eval :
    stuckRitualStep.currentState = GameState.STATE_RITUAL_STEP
    ∧ stuckRitualStep.timeRemaining = 0 := by
  have h2 : (ADVANCE_RITUAL_STEP
      (TRANSITION_TO_STATE GameState.STATE_RITUAL_STEP
        (mkGameFSM oneStepRitualA)).2).2.timeRemaining = 5 := by decide
  have h3 := updateTime_timeout
    (d := (ADVANCE_RITUAL_STEP
      (TRANSITION_TO_STATE GameState.STATE_RITUAL_STEP
        (mkGameFSM oneStepRitualA)).2).2) 5000 (by decide)
    (by rw [h2]; norm_num)
  constructor
  · show (TRANSITION_TO_STATE GameState.STATE_RITUAL_STEP
      (updateTime 5000
        (ADVANCE_RITUAL_STEP
          (TRANSITION_TO_STATE GameState.STATE_RITUAL_STEP
            (mkGameFSM oneStepRitualA)).2).2)).2.currentState
      = GameState.STATE_RITUAL_STEP
    rw [h3]
    decide
  · show (TRANSITION_TO_STATE GameState.STATE_RITUAL_STEP
      (updateTime 5000
        (ADVANCE_RITUAL_STEP
          (TRANSITION_TO_STATE GameState.STATE_RITUAL_STEP
            (mkGameFSM oneStepRitualA)).2).2)).2.timeRemaining = 0
    rw [h3]
    decide

/-- Counterexample to claim C9 as stated: stuckRitualStep is reachable by
the state-machine operations, sits in RITUAL_STEP with timeRemaining = 0,
and there updateTime 0 changes currentState (the zero-delta tick fires
the timeout transition to MONSTER_MAD). -/
theorem updateTime_zero_counterexample :
    Reachable oneStepRitualA stuckRitualStep
    ∧ stuckRitualStep.currentState = GameState.STATE_RITUAL_STEP
    ∧ stuckRitualStep.timeRemaining = 0
    ∧ (updateTime 0 stuckRitualStep).currentState ≠ stuckRitualStep.currentState := by
  obtain ⟨hs, ht⟩ := stuckRitualStep_eval
  refine ⟨?_, hs, ht, ?_⟩
  · exact Reachable.step
      (Reachable.step
        (Reachable.step (Reachable.step Reachable.init (FSMOp.transition _ _))
          (FSMOp.advance _))
        (FSMOp.tick 5000 _))
      (FSMOp.transition _ _)
  · have hto := updateTime_timeout (d := stuckRitualStep) 0 hs
      (by rw [ht]; norm_num)
    rw [hto, hs]
    decide

/-- Claim C9 as amended: updateTime 0 never changes timeRemaining (for
the non-negative timeRemaining values the data model prescribes), and it
is a complete no-op in every state except RITUAL_STEP with
timeRemaining = 0, where even a zero-delta tick fires the timeout
transition to MONSTER_MAD (see the counterexample for reachability of
that state). -/
theorem updateTime_zero_spec (d : GameStateData) :
    (0 ≤ d.timeRemaining → (updateTime 0 d).timeRemaining = d.timeRemaining)
    ∧ (d.currentState ≠ GameState.STATE_RITUAL_STEP → updateTime 0 d = d)
    ∧ (d.currentState = GameState.STATE_RITUAL_STEP → 0 < d.timeRemaining →
        updateTime 0 d = d) := by
  have hzero : ∀ q : ℚ, q - 0 / 1000 = q := by intro q; norm_num
  refine ⟨?_, fun h => updateTime_not_ritual 0 h, ?_⟩
  · intro hnn
    by_cases hs : d.currentState = GameState.STATE_RITUAL_STEP
    · by_cases hz : d.timeRemaining ≤ 0
      · have h0 : d.timeRemaining = 0 := le_antisymm hz hnn
        have hto := updateTime_timeout (d := d) 0 hs (by rw [h0]; norm_num)
        rw [hto]
        exact h0.symm
      · push_neg at hz
        have hno := updateTime_no_timeout (d := d) 0 hs (by rw [hzero]; exact hz)
        rw [hno]
        show d.timeRemaining - 0 / 1000 = d.timeRemaining
        exact hzero _
    · rw [updateTime_not_ritual 0 hs]
  · intro hs hpos
    have hno := updateTime_no_timeout (d := d) 0 hs (by rw [hzero]; exact hpos)
    rw [hno, hzero]

/-- Witness for C9 (amended): on the freshly constructed FSM (in IDLE)
the zero tick is a no-op. -/
theorem updateTime_zero_spec_witness :
    updateTime 0 (mkGameFSM oneStepRitualA) = mkGameFSM oneStepRitualA :=
  (updateTime_zero_spec (mkGameFSM oneStepRitualA)).2.1 (by decide)

theorem lookup_setKey_self (a : InputAction) (t : ℤ)
    (m : List (InputAction × ℤ)) : (setKey a t m).lookup a = some t := by
  induction m with
  | nil => simp [setKey, List.lookup]
  | cons p rest ih =>
    obtain ⟨b, u⟩ := p
    by_cases h : b = a
    · simp [setKey, h, List.lookup]
    · have hab : (a == b) = false := by simp [Ne.symm h]
      simp [setKey, h, List.lookup, hab, ih]

theorem lookup_setKey_ne {a b : InputAction} (t : ℤ)
    (m : List (InputAction × ℤ)) (h : b ≠ a) :
    (setKey a t m).lookup b = m.lookup b := by
  have hba : (b == a) = false := by simp [h]
  induction m with
  | nil => simp [setKey, List.lookup, hba]
  | cons p rest ih =>
    obtain ⟨c, u⟩ := p
    by_cases hc : c = a
    · subst hc
      simp [setKey, List.lookup, hba]
    · cases hbc : (b == c) with
      | true => simp [setKey, hc, List.lookup, hbc]
      | false => simp [setKey, hc, List.lookup, hbc, ih]

/-- Claim C10: debouncing is per action kind: an input strictly within
50ms of the previously accepted input of the same action is dropped with
no emission and an untouched timestamp cache; any other input of that
action is accepted, emitted exactly once, and only its own cache entry is
updated; the decision for an action depends only on that action's cache
entry, never on other actions; and two identical BUTTON_A presses 10ms
apart yield exactly one emitted action. -/
theorem debounce_spec (a b : InputAction) (now : ℤ)
    (m m2 : List (InputAction × ℤ)) :
    (now - ((m.lookup a).getD 0) < INPUT_DEBOUNCE_MS →
        HANDLE_BUTTON_PRESS a now m = (none, m))
    ∧ (INPUT_DEBOUNCE_MS ≤ now - ((m.lookup a).getD 0) →
        (HANDLE_BUTTON_PRESS a now m).1 = some a
        ∧ (HANDLE_BUTTON_PRESS a now m).2.lookup a = some now
        ∧ (b ≠ a → (HANDLE_BUTTON_PRESS a now m).2.lookup b = m.lookup b))
    ∧ (m.lookup a = m2.lookup a →
        (HANDLE_BUTTON_PRESS a now m).1 = (HANDLE_BUTTON_PRESS a now m2).1)
    ∧ ((HANDLE_BUTTON_PRESS InputAction.BUTTON_A 1000 []).1
         = some InputAction.BUTTON_A
       ∧ (HANDLE_BUTTON_PRESS InputAction.BUTTON_A 1010
            (HANDLE_BUTTON_PRESS InputAction.BUTTON_A 1000 []).2).1 = none) := by
  refine ⟨?_, ?_, ?_, by decide, by decide⟩
  · intro h
    unfold HANDLE_BUTTON_PRESS
    dsimp only
    rw [if_pos h]
  · intro h
    unfold HANDLE_BUTTON_PRESS
    dsimp only
    rw [if_neg (not_lt.mpr h)]
    exact ⟨rfl, lookup_setKey_self a now m, fun hb => lookup_setKey_ne now m hb⟩
  · intro h
    unfold HANDLE_BUTTON_PRESS
    dsimp only
    rw [h]
    by_cases hlt : now - ((m2.lookup a).getD 0) < INPUT_DEBOUNCE_MS
    · rw [if_pos hlt, if_pos hlt]
    · rw [if_neg hlt, if_neg hlt]

/-- Witness for C10: with BUTTON_A accepted at time 1000 in the cache, a
second BUTTON_A at 1010 is dropped and the cache is left untouched. -/
theorem debounce_spec_witness :
    HANDLE_BUTTON_PRESS InputAction.BUTTON_A 1010 [(InputAction.BUTTON_A, 1000)]
      = (none, [(InputAction.BUTTON_A, 1000)]) :=
  (debounce_spec InputAction.BUTTON_A InputAction.BUTTON_B 1010
    [(InputAction.BUTTON_A, 1000)] []).1 (by decide)

theorem one_le_stepTimeLimit (base m : ℚ) : 1 ≤ stepTimeLimit base m := by
  unfold stepTimeLimit
  have h : (1:ℤ) ≤ max 3 (Int.floor (base * m)) :=
    le_trans (by norm_num) (le_max_left _ _)
  exact_mod_cast h

theorem stepTimeLimit_mono (base : ℚ) (hb : 0 ≤ base) {m1 m2 : ℚ}
    (h : m2 ≤ m1) : stepTimeLimit base m2 ≤ stepTimeLimit base m1 := by
  unfold stepTimeLimit
  have hf : Int.floor (base * m2) ≤ Int.floor (base * m1) :=
    Int.floor_le_floor (mul_le_mul_of_nonneg_left h hb)
  exact_mod_cast max_le_max (le_refl 3) hf

/-- The multiplier computed by getRitualForLevel. -/
def levelMultiplier (L : ℕ) : ℚ := max (3 / 5) (1 - (1 / 20) * ((L : ℚ) - 1))

theorem getRitualForLevel_eq (choice : ℕ → ℕ) (L : ℕ) :
    getRitualForLevel choice L =
      generateVariedRitual choice L 10 (levelMultiplier L) := rfl

theorem levelMultiplier_antitone {L1 L2 : ℕ} (h : L1 ≤ L2) :
    levelMultiplier L2 ≤ levelMultiplier L1 := by
  unfold levelMultiplier
  apply max_le_max (le_refl _)
  have hc : ((L1 : ℚ) - 1) ≤ ((L2 : ℚ) - 1) := by
    have := (Nat.cast_le (α := ℚ)).mpr h
    linarith
  have := mul_le_mul_of_nonneg_left hc (by norm_num : (0:ℚ) ≤ 1 / 20)
  linarith

theorem gen_length (choice : ℕ → ℕ) (L : ℕ) (base m : ℚ) :
    (generateVariedRitual choice L base m).steps.length = 5 + (L - 1) / 3 := by
  simp [generateVariedRitual]
  omega

theorem list_map_of_const {α β : Type} {f : α → β} {b : β}
    (hf : ∀ a, f a = b) : ∀ l : List α, l.map f = List.replicate l.length b := by
  intro l
  induction l with
  | nil => rfl
  | cons x xs ih => simp [List.replicate_succ, hf x, ih]

theorem gen_map_timeLimit (choice : ℕ → ℕ) (L : ℕ) (base m : ℚ) :
    (generateVariedRitual choice L base m).steps.map RitualStep.timeLimit =
      List.replicate 5 (stepTimeLimit base m)
        ++ List.replicate ((L - 1) / 3) (stepTimeLimit 8 m) := by
  unfold generateVariedRitual
  dsimp only
  rw [List.map_append, List.map_map]
  congr 1
  nth_rewrite 2 [show (L - 1) / 3 = (List.range ((L - 1) / 3)).length from
    (List.length_range _).symm]
  apply list_map_of_const
  intro a
  rfl

theorem timeLimit_at (choice : ℕ → ℕ) (L : ℕ) (base m : ℚ) (i : ℕ)
    (st : RitualStep)
    (h : (generateVariedRitual choice L base m).steps[i]? = some st) :
    st.timeLimit = if i < 5 then stepTimeLimit base m else stepTimeLimit 8 m := by
  have hmap := congrArg (fun l => l[i]?) (gen_map_timeLimit choice L base m)
  dsimp only at hmap
  rw [List.getElem?_map, h, Option.map_some'] at hmap
  rw [List.getElem?_append] at hmap
  simp only [List.length_replicate] at hmap
  by_cases hi : i < 5
  · rw [if_pos hi]
    rw [if_pos hi, List.getElem?_replicate, if_pos hi] at hmap
    exact Option.some_inj.mp hmap
  · rw [if_neg hi]
    have hlen : i < 5 + (L - 1) / 3 := by
      rcases List.getElem?_eq_some.mp h with ⟨hl, _⟩
      rwa [gen_length] at hl
    rw [if_neg hi, List.getElem?_replicate] at hmap
    rw [if_pos (by omega)] at hmap
    exact Option.some_inj.mp hmap

/-- Claim C8: for levels L1 <= L2 the difficulty scaler produces, for any
random draws, stepwise non-increasing time limits, time limits never
below 1 second (the code clamps at 3), non-decreasing step counts growing
by one extra step every 3rd level (length = 5 + (L-1)/3), and the
level-4 ritual has exactly one step more than the level-1 base count. -/
theorem difficulty_scaling (choice1 choice2 : ℕ → ℕ) (L1 L2 : ℕ)
    (hL : L1 ≤ L2) :
    (∀ (i : ℕ) (st1 st2 : RitualStep),
        (getRitualForLevel choice1 L1).steps[i]? = some st1 →
        (getRitualForLevel choice2 L2).steps[i]? = some st2 →
        st2.timeLimit ≤ st1.timeLimit)
    ∧ (∀ st ∈ (getRitualForLevel choice1 L1).steps, 1 ≤ st.timeLimit)
    ∧ (getRitualForLevel choice1 L1).steps.length
        ≤ (getRitualForLevel choice2 L2).steps.length
    ∧ (∀ (choice : ℕ → ℕ) (L : ℕ),
        (getRitualForLevel choice L).steps.length = 5 + (L - 1) / 3)
    ∧ (getRitualForLevel choice1 4).steps.length
        = (getRitualForLevel choice2 1).steps.length + 1 := by
  have hm := levelMultiplier_antitone hL
  refine ⟨?_, ?_, ?_, ?_, ?_⟩
  · intro i st1 st2 h1 h2
    rw [getRitualForLevel_eq] at h1 h2
    rw [timeLimit_at _ _ _ _ _ _ h1, timeLimit_at _ _ _ _ _ _ h2]
    by_cases hi : i < 5
    · rw [if_pos hi, if_pos hi]
      exact stepTimeLimit_mono 10 (by norm_num) hm
    · rw [if_neg hi, if_neg hi]
      exact stepTimeLimit_mono 8 (by norm_num) hm
  · intro st hmem
    rw [getRitualForLevel_eq] at hmem
    have hmm : st.timeLimit ∈
        (generateVariedRitual choice1 L1 10 (levelMultiplier L1)).steps.map
          RitualStep.timeLimit := List.mem_map_of_mem _ hmem
    rw [gen_map_timeLimit] at hmm
    rcases List.mem_append.mp hmm with hx | hx
    · rw [List.eq_of_mem_replicate hx]
      exact one_le_stepTimeLimit _ _
    · rw [List.eq_of_mem_replicate hx]
      exact one_le_stepTimeLimit _ _
  · rw [getRitualForLevel_eq, getRitualForLevel_eq, gen_length, gen_length]
    have := Nat.div_le_div_right (c := 3) (Nat.sub_le_sub_right hL 1)
    omega
  · intro choice L
    rw [getRitualForLevel_eq, gen_length]
  · rw [getRitualForLevel_eq, getRitualForLevel_eq, gen_length, gen_length]

/-- Witness for C8: the level-1 ritual has no more steps than the
level-4 ritual (5 against 6). -/
theorem difficulty_scaling_witness :
    (getRitualForLevel (fun _ => 0) 1).steps.length
      ≤ (getRitualForLevel (fun _ => 0) 4).steps.length :=
  (difficulty_scaling (fun _ => 0) (fun _ => 0) 1 4 (by norm_num)).2.2.1
